import Mathlib

/-! # video_stream_opencv: the capture-and-publish node `src/video_stream.cpp`

A shallow embedding of the node's helpers (`get_default_camera_info_from_image`,
`getImgType`) and of `main` (parameter handling, capture opening, flip
selection, the publish loop), followed by theorems about them.

Conventions of the embedding.

* ROS messages are structures holding the fields the program reads or writes.
* C++ `double` values that the program computes are dyadic rationals that are
  exactly representable; they are carried as `ℚ`.
* Calls to the outside world (capture device, publisher, camera info manager,
  rate sleep) are recorded, in program order, as a list of `Event`s; what the
  outside world answers (open succeeded, frame read, subscriber count, clock)
  is an input of the model.
* Logging statements have no effect on the state and are left out.
-/

namespace VideoStream

/-! ## OpenCV type codes (`opencv2/core/hal/interface.h`, `cvdef.h`) -/

/-- Number of bits the channel count is shifted by in a type code (`CV_CN_SHIFT`). -/
def CV_CN_SHIFT : Nat := 3

def CV_8U : Nat := 0
def CV_8S : Nat := 1
def CV_16U : Nat := 2
def CV_16S : Nat := 3
def CV_32S : Nat := 4
def CV_32F : Nat := 5
def CV_64F : Nat := 6

/-- Depth of a type code: `CV_MAT_DEPTH(flags) = flags & 7`. -/
def CV_MAT_DEPTH (flags : Nat) : Nat := flags % 2 ^ CV_CN_SHIFT

/-- Channel count of a type code: `CV_MAT_CN(flags) = ((flags & 4088) >> 3) + 1`. -/
def CV_MAT_CN (flags : Nat) : Nat := (flags / 2 ^ CV_CN_SHIFT) % 512 + 1

/-- Type code of a depth and a channel count:
`CV_MAKETYPE(depth, cn) = CV_MAT_DEPTH(depth) + ((cn - 1) << CV_CN_SHIFT)`. -/
def CV_MAKETYPE (depth cn : Nat) : Nat := CV_MAT_DEPTH depth + (cn - 1) * 2 ^ CV_CN_SHIFT

def CV_8UC1 : Nat := CV_MAKETYPE CV_8U 1
def CV_8UC2 : Nat := CV_MAKETYPE CV_8U 2
def CV_8UC3 : Nat := CV_MAKETYPE CV_8U 3
def CV_8UC4 : Nat := CV_MAKETYPE CV_8U 4
def CV_8SC1 : Nat := CV_MAKETYPE CV_8S 1
def CV_8SC2 : Nat := CV_MAKETYPE CV_8S 2
def CV_8SC3 : Nat := CV_MAKETYPE CV_8S 3
def CV_8SC4 : Nat := CV_MAKETYPE CV_8S 4
def CV_16UC1 : Nat := CV_MAKETYPE CV_16U 1
def CV_16UC2 : Nat := CV_MAKETYPE CV_16U 2
def CV_16UC3 : Nat := CV_MAKETYPE CV_16U 3
def CV_16UC4 : Nat := CV_MAKETYPE CV_16U 4
def CV_16SC1 : Nat := CV_MAKETYPE CV_16S 1
def CV_16SC2 : Nat := CV_MAKETYPE CV_16S 2
def CV_16SC3 : Nat := CV_MAKETYPE CV_16S 3
def CV_16SC4 : Nat := CV_MAKETYPE CV_16S 4
def CV_32SC1 : Nat := CV_MAKETYPE CV_32S 1
def CV_32SC2 : Nat := CV_MAKETYPE CV_32S 2
def CV_32SC3 : Nat := CV_MAKETYPE CV_32S 3
def CV_32SC4 : Nat := CV_MAKETYPE CV_32S 4
def CV_32FC1 : Nat := CV_MAKETYPE CV_32F 1
def CV_32FC2 : Nat := CV_MAKETYPE CV_32F 2
def CV_32FC3 : Nat := CV_MAKETYPE CV_32F 3
def CV_32FC4 : Nat := CV_MAKETYPE CV_32F 4
def CV_64FC1 : Nat := CV_MAKETYPE CV_64F 1
def CV_64FC2 : Nat := CV_MAKETYPE CV_64F 2
def CV_64FC3 : Nat := CV_MAKETYPE CV_64F 3
def CV_64FC4 : Nat := CV_MAKETYPE CV_64F 4

/-! ## `getImgType` (video_stream.cpp, lines 78-103) -/

/-- The local `numImgTypes` of `getImgType`. -/
def numImgTypes : Nat := 35

/-- The local array `enum_ints` of `getImgType`, as `int`s. -/
def enum_ints : List Int :=
  [CV_8U,  CV_8UC1,  CV_8UC2,  CV_8UC3,  CV_8UC4,
   CV_8S,  CV_8SC1,  CV_8SC2,  CV_8SC3,  CV_8SC4,
   CV_16U, CV_16UC1, CV_16UC2, CV_16UC3, CV_16UC4,
   CV_16S, CV_16SC1, CV_16SC2, CV_16SC3, CV_16SC4,
   CV_32S, CV_32SC1, CV_32SC2, CV_32SC3, CV_32SC4,
   CV_32F, CV_32FC1, CV_32FC2, CV_32FC3, CV_32FC4,
   CV_64F, CV_64FC1, CV_64FC2, CV_64FC3, CV_64FC4]

/-- The local array `enum_strings` of `getImgType`. -/
def enum_strings : List String :=
  ["CV_8U",  "CV_8UC1",  "CV_8UC2",  "CV_8UC3",  "CV_8UC4",
   "CV_8S",  "CV_8SC1",  "CV_8SC2",  "CV_8SC3",  "CV_8SC4",
   "CV_16U", "CV_16UC1", "CV_16UC2", "CV_16UC3", "CV_16UC4",
   "CV_16S", "CV_16SC1", "CV_16SC2", "CV_16SC3", "CV_16SC4",
   "CV_32S", "CV_32SC1", "CV_32SC2", "CV_32SC3", "CV_32SC4",
   "CV_32F", "CV_32FC1", "CV_32FC2", "CV_32FC3", "CV_32FC4",
   "CV_64F", "CV_64FC1", "CV_64FC2", "CV_64FC3", "CV_64FC4"]

/-- The `for` loop of `getImgType`, entered with loop variable `i` and
`remaining = numImgTypes - i` iterations left before `i < numImgTypes` fails.
The fall-through value is the `return` after the loop. -/
def getImgTypeLoop (imgTypeInt : Int) : Nat → Nat → String
  | 0, _ => "unknown image type"
  | remaining + 1, i =>
    if imgTypeInt = enum_ints.getD i 0 then enum_strings.getD i ""
    else getImgTypeLoop imgTypeInt remaining (i + 1)

/-- `std::string getImgType(int imgTypeInt)`. -/
def getImgType (imgTypeInt : Int) : String :=
  getImgTypeLoop imgTypeInt numImgTypes 0

/-- The seven names of the table with suffix `C1`. -/
def c1Names : List String :=
  ["CV_8UC1", "CV_8SC1", "CV_16UC1", "CV_16SC1", "CV_32SC1", "CV_32FC1", "CV_64FC1"]

/-- The seven depth-only names of the table, indexed by depth code. -/
def depthNames : List String :=
  ["CV_8U", "CV_8S", "CV_16U", "CV_16S", "CV_32S", "CV_32F", "CV_64F"]

/-- Reading of "the name at the first index of the table whose code equals `t`,
and `unknown image type` when no entry matches". -/
def firstMatchName (t : Int) : String :=
  match enum_ints.indexOf? t with
  | some i => enum_strings.getD i ""
  | none => "unknown image type"

/-! ## Flip selection in `main` (lines 174-185, 288-289) -/

/-- The flip codes of `cv::flip` as listed by the comment on line 175 of the
source: `FLIP_HORIZONTAL == 1, FLIP_VERTICAL == 0 or FLIP_BOTH == -1`. -/
def FLIP_HORIZONTAL : Int := 1
def FLIP_VERTICAL : Int := 0
def FLIP_BOTH : Int := -1

/-- The locals `flip_image` and `flip_value` after lines 176-185.
`flip_value` is `none` while the C++ variable is left uninitialised. -/
structure FlipSel where
  flip_image : Bool
  flip_value : Option Int
deriving DecidableEq, Repr

/-- Lines 176-185 of `main`. -/
def flipSelection (flip_horizontal flip_vertical : Bool) : FlipSel :=
  if flip_horizontal && flip_vertical then
    { flip_image := true, flip_value := some 0 }
  else if flip_horizontal then
    { flip_image := true, flip_value := some 1 }
  else if flip_vertical then
    { flip_image := true, flip_value := some (-1) }
  else
    { flip_image := false, flip_value := none }

/-- The third argument of the `cv::flip` call on lines 288-289, when the call
is made at all. -/
def flipCallCode (sel : FlipSel) : Option Int :=
  if sel.flip_image then sel.flip_value else none

/-! ## Source identifier dispatch in `main` (lines 113-132) -/

/-- C `isspace` in the "C" locale. -/
def isspace (c : Char) : Bool :=
  c == ' ' || c == '\t' || c == '\n' || c == Char.ofNat 11 || c == Char.ofNat 12 || c == '\r'

/-- C `isdigit`. -/
def isdigit (c : Char) : Bool := decide ('0' ≤ c ∧ c ≤ '9')

/-- The digit loop of `atoi`: accumulate decimal digits until the first
character that is not one (the terminating NUL of a C string is such a
character). -/
def atoiDigits : List Char → Int → Int
  | [], n => n
  | c :: cs, n => if isdigit c then atoiDigits cs (10 * n + ((c.toNat : Int) - 48)) else n

/-- C `atoi` (ISO C 7.22.1.2, `strtol` in base 10): skip white space, take an
optional sign, then the decimal digits. The result is the mathematical
integer; C leaves the result undefined when it does not fit an `int`. -/
def atoi (s : List Char) : Int :=
  match s.dropWhile isspace with
  | '-' :: r => - atoiDigits r 0
  | '+' :: r => atoiDigits r 0
  | r => atoiDigits r 0

/-- The two overloads of `cv::VideoCapture::open` used by `main`. -/
inductive OpenCall where
  | device (index : Int)
  | uri (filename : String)
deriving DecidableEq, Repr

/-- Lines 120-127 of `main`: which `cap.open` call is made for a given
`video_stream_provider`. `std::string::size` counts `char`s, i.e. the bytes
of the string. -/
def openCallFor (video_stream_provider : String) : OpenCall :=
  if video_stream_provider.utf8ByteSize < 4 then
    OpenCall.device (atoi video_stream_provider.data)
  else
    OpenCall.uri video_stream_provider

/-- Value of a list of decimal digit characters, most significant first. -/
def decimalValue (ds : List Char) : Nat :=
  Nat.ofDigits 10 (ds.reverse.map fun c => c.toNat - 48)

/-! ## Messages -/

/-- The field of `std_msgs/Header` the program sets. -/
structure Header where
  frame_id : String
deriving DecidableEq, Repr

/-- A `sensor_msgs/Image`. `data` lists the samples of the buffer in row-major
order, one entry per sample; on the wire each takes `step / width / channels`
bytes. -/
structure ImageMsg where
  header : Header
  height : Nat
  width : Nat
  encoding : String
  step : Nat
  data : List Int
deriving DecidableEq, Repr

/-- A `sensor_msgs/CameraInfo`: the fields the program reads or writes. -/
structure CameraInfo where
  header : Header
  height : Nat
  width : Nat
  distortion_model : String
  D : List ℚ
  K : List ℚ
  R : List ℚ
  P : List ℚ
deriving DecidableEq

/-- A default-constructed `sensor_msgs::CameraInfo`: empty strings, zero sizes,
empty `D`, zero-filled fixed-size arrays. -/
def CameraInfo.init : CameraInfo :=
  { header := { frame_id := "" }, height := 0, width := 0, distortion_model := "",
    D := [], K := List.replicate 9 0, R := List.replicate 9 0, P := List.replicate 12 0 }

/-- `std::vector<double>::resize(n, v)`. -/
def vectorResize (xs : List ℚ) (n : Nat) (v : ℚ) : List ℚ :=
  xs.take n ++ List.replicate (n - xs.length) v

/-- `get_default_camera_info_from_image` (lines 50-75). `img->width / 2.0` is a
`uint32` divided by two in `double`, which is exact. -/
def get_default_camera_info_from_image (img : ImageMsg) : CameraInfo :=
  let cam_info_msg := CameraInfo.init
  let cam_info_msg := { cam_info_msg with header := { frame_id := img.header.frame_id } }
  let cam_info_msg := { cam_info_msg with height := img.height }
  let cam_info_msg := { cam_info_msg with width := img.width }
  let cam_info_msg := { cam_info_msg with distortion_model := "plumb_bob" }
  let cam_info_msg := { cam_info_msg with D := vectorResize cam_info_msg.D 5 0 }
  let cam_info_msg := { cam_info_msg with
    K := [1, 0, (img.width : ℚ) / 2,
          0, 1, (img.height : ℚ) / 2,
          0, 0, 1] }
  let cam_info_msg := { cam_info_msg with
    R := [1, 0, 0,
          0, 1, 0,
          0, 0, 1] }
  let cam_info_msg := { cam_info_msg with
    P := [1, 0, (img.width : ℚ) / 2, 0,
          0, 1, (img.height : ℚ) / 2, 0,
          0, 0, 1, 0] }
  cam_info_msg

/-! ## OpenCV matrices and the operations `main` calls on them

OpenCV is a library the program links against. The operations below follow
OpenCV's reference documentation and, for the arithmetic, its implementation
(`modules/core/src/convert.cpp`, `modules/imgproc/src/color.cpp`). -/

/-- A two-dimensional `cv::Mat` with integer samples: `data` lists the rows,
each row lists its pixels, each pixel lists its channel samples. -/
structure Mat where
  rows : Nat
  cols : Nat
  type : Nat
  data : List (List (List Int))
deriving DecidableEq, Repr

/-- `cv::Mat::depth()`. -/
def Mat.depth (m : Mat) : Nat := CV_MAT_DEPTH m.type

/-- `cv::Mat::channels()`. -/
def Mat.channels (m : Mat) : Nat := CV_MAT_CN m.type

/-- `cv::Mat::empty()`: no element (`total() == 0`). -/
def Mat.empty (m : Mat) : Bool := m.rows * m.cols == 0

/-- Bytes per sample of a depth (`CV_ELEM_SIZE1`). -/
def elemSize1 (depth : Nat) : Nat :=
  if depth = CV_8U ∨ depth = CV_8S then 1
  else if depth = CV_16U ∨ depth = CV_16S then 2
  else if depth = CV_32S ∨ depth = CV_32F then 4
  else 8

/-- `cv::Mat::elemSize()`: bytes per pixel. -/
def Mat.elemSize (m : Mat) : Nat := m.channels * elemSize1 m.depth

/-- The buffer of a matrix agrees with its header: `rows` rows of `cols`
pixels of `channels()` samples. -/
def Mat.WF (m : Mat) : Prop :=
  m.data.length = m.rows ∧
  ∀ row ∈ m.data, row.length = m.cols ∧ ∀ px ∈ row, px.length = m.channels

instance (m : Mat) : Decidable m.WF := by
  unfold Mat.WF
  infer_instance

/-- `cv::flip(src, dst, flipCode)`: `0` flips around the x-axis (row order
reversed), a positive code around the y-axis (column order reversed), a
negative code around both. Size and type are kept. -/
def flip (src : Mat) (flipCode : Int) : Mat :=
  if flipCode = 0 then { src with data := src.data.reverse }
  else if flipCode > 0 then { src with data := src.data.map List.reverse }
  else { src with data := (src.data.map List.reverse).reverse }

/-- `cvRound`: round to the nearest integer, ties to the even one. -/
def cvRound (x : ℚ) : Int :=
  let f := Rat.floor x
  if x - f < 1 / 2 then f
  else if 1 / 2 < x - f then f + 1
  else if f % 2 = 0 then f else f + 1

/-- Clamp an integer into `[lo, hi]`. -/
def clamp (lo hi v : Int) : Int := if v < lo then lo else if hi < v then hi else v

/-- `cv::saturate_cast` from a floating-point value to the sample type of an
integer depth: round, then clamp to the range of the type. -/
def saturate_cast (depth : Nat) (x : ℚ) : Int :=
  if depth = CV_8U then clamp 0 255 (cvRound x)
  else if depth = CV_8S then clamp (-128) 127 (cvRound x)
  else if depth = CV_16U then clamp 0 65535 (cvRound x)
  else if depth = CV_16S then clamp (-32768) 32767 (cvRound x)
  else clamp (-2147483648) 2147483647 (cvRound x)

/-- `src.convertTo(dst, rtype, alpha)` for an integer destination depth:
`dst(x, y) = saturate_cast<rType>(alpha * src(x, y))`, same size, same
number of channels as `src`, depth taken from `rtype`. -/
def convertTo (src : Mat) (rtype : Nat) (alpha : ℚ) : Mat :=
  { rows := src.rows
    cols := src.cols
    type := CV_MAKETYPE (CV_MAT_DEPTH rtype) src.channels
    data := src.data.map fun row => row.map fun px =>
      px.map fun (v : Int) => saturate_cast (CV_MAT_DEPTH rtype) (alpha * (v : ℚ)) }

/-- Fixed-point luminance weights of OpenCV (`R2Y`, `G2Y`, `B2Y`) and their
scale `yuv_shift`; the weights sum to `2 ^ yuv_shift`. -/
def yuv_shift : Nat := 14
def R2Y : Nat := 4899
def G2Y : Nat := 9617
def B2Y : Nat := 1868

/-- `CV_DESCALE(x, n) = (x + (1 << (n - 1))) >> n`. -/
def CV_DESCALE (x n : Nat) : Nat := (x + 2 ^ (n - 1)) / 2 ^ n

/-- One pixel of `RGB2Gray<ushort>` with blue first:
`(ushort)CV_DESCALE((unsigned)(src[0]*B2Y + src[1]*G2Y + src[2]*R2Y), yuv_shift)`. -/
def bgr2gray16 (px : List Int) : Int :=
  let b := px.getD 0 0
  let g := px.getD 1 0
  let r := px.getD 2 0
  let sum : Nat := ((b * B2Y + g * G2Y + r * R2Y) % 2 ^ 32).toNat
  ((CV_DESCALE sum yuv_shift % 2 ^ 16 : Nat) : Int)

/-- The ways `cv::cvtColor` with `CV_BGR2GRAY` throws a `cv::Exception`. -/
inductive CvException where
  | badChannels
  | badDepth
deriving DecidableEq, Repr

/-- `cv::cvtColor(src, dst, CV_BGR2GRAY)`: the source must have 3 or 4
channels, the result has one channel and the size and depth of the source.
The 16-bit unsigned path is modelled, the only one `main` reaches (every
source it passes is the result of `convertTo(_, CV_16UC3, _)`). -/
def cvtColor_BGR2GRAY (src : Mat) : Except CvException Mat :=
  if src.channels ≠ 3 ∧ src.channels ≠ 4 then Except.error CvException.badChannels
  else if src.depth ≠ CV_16U then Except.error CvException.badDepth
  else Except.ok
    { rows := src.rows
      cols := src.cols
      type := CV_MAKETYPE src.depth 1
      data := src.data.map fun row => row.map fun px => [bgr2gray16 px] }

/-- `cv_bridge::CvImage(header, encoding, image).toImageMsg()`. -/
def toImageMsg (header : Header) (encoding : String) (image : Mat) : ImageMsg :=
  { header := header
    height := image.rows
    width := image.cols
    encoding := encoding
    step := image.cols * image.elemSize
    data := image.data.flatten.flatten }

/-! ## `main` (lines 105-330) -/

/-- Calls on the capture device, the publisher, the camera info manager and
the loop rate, and the image operations run on a frame, in program order. -/
inductive Event where
  | capOpen (call : OpenCall)
  | capSet (prop : String) (value : Int)
  | capRead
  | flip (flipCode : Int)
  | convertTo
  | cvtColor
  | setCameraInfo (info : CameraInfo)
  | publish (image : ImageMsg) (info : CameraInfo) (stamp : Nat)
  | spinOnce
  | sleep
deriving DecidableEq

/-- How control leaves a piece of `main`: it goes on, `main` returns a value,
or a C++ exception that no handler catches ends the process. -/
inductive Control where
  | next
  | returned (code : Int)
  | terminated
deriving DecidableEq, Repr

/-- The locals of `main` that the publish loop reads but never writes. -/
structure LoopConfig where
  sel : FlipSel
  header : Header
  msg_encoding : String
deriving DecidableEq

/-- What the outside world supplies on one iteration of the loop: the frame
`cap >> frame` stores (empty when nothing was grabbed), the value of
`pub.getNumSubscribers()` and the value of `ros::Time::now()`. -/
structure TickInput where
  frame : Mat
  numSubscribers : Nat
  now : Nat
deriving DecidableEq

/-- State after a piece of `main`: the local `cam_info_msg`, the events of the
piece and how control leaves it. -/
structure Outcome where
  cam_info_msg : CameraInfo
  events : List Event
  control : Control
deriving DecidableEq

/-- Lines 288-289: the optional in-place flip of `frame`. -/
def flipStep (sel : FlipSel) (frame : Mat) : Mat × List Event :=
  if sel.flip_image then
    (flip frame (sel.flip_value.getD 0), [Event.flip (sel.flip_value.getD 0)])
  else (frame, [])

/-- Lines 299 and 302: `frame.convertTo(frame_16UC3, CV_16UC3, 65535. / 255.)`
followed by `cv::cvtColor(frame_16UC3, frame_gray16UC1, CV_BGR2GRAY)`. Both
destinations are reallocated to the size and type of the result. -/
def toGray16 (frame : Mat) : Except CvException Mat :=
  let frame_16UC3 := convertTo frame CV_16UC3 (65535 / 255)
  cvtColor_BGR2GRAY frame_16UC3

/-- One iteration of the `while (nh.ok())` loop, lines 282-328. The handler of
the `try` block catches `ros::Exception` only, which neither `convertTo`,
`cvtColor` nor `toImageMsg` throws; a `cv::Exception` leaves `main`. -/
def tick (cfg : LoopConfig) (cam_info_msg : CameraInfo) (inp : TickInput) : Outcome :=
  let frame := inp.frame
  if inp.numSubscribers > 0 then
    if !frame.empty then
      let (frame, flipEvents) := flipStep cfg.sel frame
      match toGray16 frame with
      | Except.error _ =>
        { cam_info_msg := cam_info_msg
          events := [Event.capRead] ++ flipEvents ++ [Event.convertTo, Event.cvtColor]
          control := Control.terminated }
      | Except.ok frame_gray16UC1 =>
        let msg := toImageMsg cfg.header cfg.msg_encoding frame_gray16UC1
        if cam_info_msg.distortion_model = "" then
          let cam_info_msg := get_default_camera_info_from_image msg
          { cam_info_msg := cam_info_msg
            events := [Event.capRead] ++ flipEvents ++ [Event.convertTo, Event.cvtColor] ++
              [Event.setCameraInfo cam_info_msg, Event.publish msg cam_info_msg inp.now,
               Event.spinOnce, Event.sleep]
            control := Control.next }
        else
          { cam_info_msg := cam_info_msg
            events := [Event.capRead] ++ flipEvents ++ [Event.convertTo, Event.cvtColor] ++
              [Event.publish msg cam_info_msg inp.now, Event.spinOnce, Event.sleep]
            control := Control.next }
    else
      { cam_info_msg := cam_info_msg
        events := [Event.capRead, Event.spinOnce, Event.sleep]
        control := Control.next }
  else
    { cam_info_msg := cam_info_msg
      events := [Event.capRead, Event.sleep]
      control := Control.next }

/-- The `while (nh.ok())` loop, lines 281-329, with one list entry per
iteration for which `nh.ok()` holds. When `nh.ok()` fails, control falls off
the end of `main`, which returns 0. -/
def runLoop (cfg : LoopConfig) : CameraInfo → List TickInput → Outcome
  | cam_info_msg, [] =>
    { cam_info_msg := cam_info_msg, events := [], control := Control.returned 0 }
  | cam_info_msg, inp :: rest =>
    let r := tick cfg cam_info_msg inp
    match r.control with
    | Control.next =>
      let r2 := runLoop cfg r.cam_info_msg rest
      { r2 with events := r.events ++ r2.events }
    | _ => r

/-- The private parameters read with `_nh.param`, after defaults. -/
structure Params where
  frame_id : String
  flip_horizontal : Bool
  flip_vertical : Bool
  msg_encoding : String
  width_target : Int
  height_target : Int
deriving DecidableEq

/-- The defaults given to `_nh.param` on lines 144-168. -/
def Params.default : Params :=
  { frame_id := "camera", flip_horizontal := false, flip_vertical := false,
    msg_encoding := "bgr8", width_target := 0, height_target := 0 }

/-- What the outside world supplies to a run of `main`: whether the capture
is open after a given `open` call, the record returned by
`cam_info_manager.getCameraInfo()`, the frame of the read on line 247, and
the inputs of the loop iterations. -/
structure World where
  isOpened : OpenCall → Bool
  loaded : CameraInfo
  firstFrame : Mat
  ticks : List TickInput

/-- Lines 197-205: the `cap.set` calls. The handler of this `try` block
catches `ros::Exception`, which `cap.set` does not throw. -/
def configureEvents (p : Params) : List Event :=
  (if p.width_target ≠ 0 ∧ p.height_target ≠ 0 then
    [Event.capSet "CV_CAP_PROP_FRAME_WIDTH" p.width_target,
     Event.capSet "CV_CAP_PROP_FRAME_HEIGHT" p.height_target]
  else []) ++
  [Event.capSet "CV_CAP_PROP_CONVERT_RGB" 0,
   Event.capSet "CAP_OPENNI_IMAGE_GENERATOR_OUTPUT_MODE" 0]

/-- Lines 247-278: the read before the loop and the trial conversion of its
frame. A `cv::Exception` is not caught by the `ros::Exception` handler. -/
def firstRead (cam_info_msg : CameraInfo) (frame : Mat) : Outcome :=
  if !frame.empty then
    match toGray16 frame with
    | Except.error _ =>
      { cam_info_msg := cam_info_msg
        events := [Event.capRead, Event.convertTo, Event.cvtColor]
        control := Control.terminated }
    | Except.ok _ =>
      { cam_info_msg := cam_info_msg
        events := [Event.capRead, Event.convertTo, Event.cvtColor]
        control := Control.next }
  else
    { cam_info_msg := cam_info_msg, events := [Event.capRead], control := Control.next }

/-- The function `main`. `video_stream_provider` is `none` when
`_nh.getParam` fails. The two work matrices of lines 236-237 are constructed
with `width_target` rows and `height_target` columns; `cv::Mat` rejects a
negative size with a `cv::Exception`, which no handler catches (failure to
allocate them is not modelled). Their contents are never read: `convertTo`
and `cvtColor` reallocate their destinations. -/
def main (video_stream_provider : Option String) (p : Params) (w : World) : Outcome :=
  match video_stream_provider with
  | none => { cam_info_msg := CameraInfo.init, events := [], control := Control.returned (-1) }
  | some provider =>
    let call := openCallFor provider
    let sel := flipSelection p.flip_horizontal p.flip_vertical
    if !w.isOpened call then
      { cam_info_msg := CameraInfo.init
        events := [Event.capOpen call]
        control := Control.returned (-1) }
    else if p.width_target < 0 ∨ p.height_target < 0 then
      { cam_info_msg := CameraInfo.init
        events := [Event.capOpen call] ++ configureEvents p
        control := Control.terminated }
    else
      let cfg : LoopConfig :=
        { sel := sel, header := { frame_id := p.frame_id }, msg_encoding := p.msg_encoding }
      let r1 := firstRead w.loaded w.firstFrame
      match r1.control with
      | Control.next =>
        let r2 := runLoop cfg r1.cam_info_msg w.ticks
        { r2 with events := [Event.capOpen call] ++ configureEvents p ++ r1.events ++ r2.events }
      | _ => { r1 with events := [Event.capOpen call] ++ configureEvents p ++ r1.events }

/-- Exit status the operating system reports for a value returned from
`main`: its low eight bits. -/
def exitStatus (code : Int) : Int := code % 256

/-- The `(image, info)` pairs handed to `pub.publish`, in order. -/
def publishes : List Event → List (ImageMsg × CameraInfo)
  | [] => []
  | Event.publish image info _ :: es => (image, info) :: publishes es
  | _ :: es => publishes es

/-- The records built by `get_default_camera_info_from_image` and stored with
`cam_info_manager.setCameraInfo` (lines 319-320), in order. -/
def synthesized : List Event → List CameraInfo
  | [] => []
  | Event.setCameraInfo info :: es => info :: synthesized es
  | _ :: es => synthesized es

/-- Whether an event is an image operation on a frame (flip or conversion). -/
def Event.isTransform : Event → Bool
  | Event.flip _ => true
  | Event.convertTo => true
  | Event.cvtColor => true
  | _ => false

/-- Whether an event is a `pub.publish` call. -/
def Event.isPublish : Event → Bool
  | Event.publish _ _ _ => true
  | _ => false


/-! ## Sample inputs -/

/-- A 2x2 all-white 8-bit three-channel frame. -/
def white2x2 : Mat :=
  { rows := 2, cols := 2, type := CV_8UC3
    data := [[[255, 255, 255], [255, 255, 255]], [[255, 255, 255], [255, 255, 255]]] }

/-- The loop configuration under the default parameters: no flip, frame id
`camera`, encoding label `bgr8`. -/
def defaultConfig : LoopConfig :=
  { sel := flipSelection false false, header := { frame_id := "camera" }, msg_encoding := "bgr8" }

/-- A 1x3 all-white 8-bit three-channel frame (one row, three columns). -/
def white1x3 : Mat :=
  { rows := 1, cols := 3, type := CV_8UC3
    data := [[[255, 255, 255], [255, 255, 255], [255, 255, 255]]] }

/-- A persisted calibration of a 640x480 camera. -/
def persisted640x480 : CameraInfo :=
  { header := { frame_id := "camera" }, height := 480, width := 640
    distortion_model := "plumb_bob", D := [0, 0, 0, 0, 0]
    K := [525, 0, 320, 0, 525, 240, 0, 0, 1]
    R := [1, 0, 0, 0, 1, 0, 0, 0, 1]
    P := [525, 0, 320, 0, 0, 525, 240, 0, 0, 0, 1, 0] }

/-- Width and height of the image and of the record of a publish. -/
def publishDims (p : ImageMsg × CameraInfo) : (Nat × Nat) × (Nat × Nat) :=
  ((p.1.width, p.1.height), (p.2.width, p.2.height))

end VideoStream

/-! # Theorems -/

namespace VideoStream

/-! ## `getImgType` -/

theorem enum_ints_range : ∀ x ∈ enum_ints, 0 ≤ x ∧ x ≤ 30 := by decide

theorem getImgTypeLoop_no_match (t : Int) (ht : t ∉ enum_ints) :
    ∀ remaining i, i + remaining ≤ 35 → getImgTypeLoop t remaining i = "unknown image type" := by
  intro remaining
  induction remaining with
  | zero => intro i _; rfl
  | succ k ih =>
    intro i hi
    have hlen : i < enum_ints.length := by
      have : enum_ints.length = 35 := by decide
      omega
    have hmem : enum_ints.getD i 0 ∈ enum_ints := by
      rw [List.getD_eq_getElem _ _ hlen]
      exact List.getElem_mem hlen
    have hne : t ≠ enum_ints.getD i 0 := fun h => ht (h ▸ hmem)
    simp only [getImgTypeLoop, if_neg hne]
    exact ih (i + 1) (by omega)

theorem firstMatchName_no_match (t : Int) (ht : t ∉ enum_ints) :
    firstMatchName t = "unknown image type" := by
  have : enum_ints.indexOf? t = none := by
    simp only [List.indexOf?, List.findIdx?_eq_none_iff]
    intro x hx
    simp
    rintro rfl
    exact ht hx
  simp [firstMatchName, this]

theorem getImgType_in_range (n : Nat) (hn : n ≤ 30) :
    getImgType (n : Int) = firstMatchName n ∧ getImgType (n : Int) ∉ c1Names := by
  interval_cases n <;> decide

theorem getImgType_out_of_range (t : Int) (ht : t < 0 ∨ 30 < t) :
    getImgType t = "unknown image type" ∧ firstMatchName t = "unknown image type" := by
  have hmem : t ∉ enum_ints := by
    intro h
    have := enum_ints_range t h
    omega
  exact ⟨getImgTypeLoop_no_match t hmem 35 0 (by omega), firstMatchName_no_match t hmem⟩

/-- C10: for every `int` type code `t`, `getImgType t` is the name at the first
index of the 35-entry table whose code equals `t`, and `unknown image type`
when no entry matches. Since `CV_MAKETYPE(depth, cn) = depth + 8 * (cn - 1)`,
each single-channel code equals its depth code, so a single-channel code
yields the depth-only name and none of the seven `...C1` names is ever
returned; code 16 yields `CV_8UC3` and every code outside `0..30` yields
`unknown image type`. -/
theorem getImgType_first_match (t : Int) :
    getImgType t = firstMatchName t ∧
    getImgType t ∉ c1Names ∧
    (∀ d : Fin 7, ∀ cn : Fin 4,
      CV_MAKETYPE d (cn + 1) = (d : Nat) + 8 * cn ∧
      CV_MAKETYPE d 1 = d ∧
      getImgType ((CV_MAKETYPE d 1 : Nat) : Int) = depthNames.getD d "") ∧
    getImgType 16 = "CV_8UC3" ∧
    (t ∉ Set.Icc (0 : Int) 30 → getImgType t = "unknown image type") := by
  have hout : t ∉ Set.Icc (0 : Int) 30 → t < 0 ∨ 30 < t := by
    intro h
    simp only [Set.mem_Icc, not_and_or, not_le] at h
    exact h
  refine ⟨?_, ?_, by decide, by decide, fun h => (getImgType_out_of_range t (hout h)).1⟩
  · by_cases h : 0 ≤ t ∧ t ≤ 30
    · obtain ⟨n, rfl⟩ := Int.eq_ofNat_of_zero_le h.1
      exact (getImgType_in_range n (by omega)).1
    · have h2 : t < 0 ∨ 30 < t := by omega
      rw [(getImgType_out_of_range t h2).1, (getImgType_out_of_range t h2).2]
  · by_cases h : 0 ≤ t ∧ t ≤ 30
    · obtain ⟨n, rfl⟩ := Int.eq_ofNat_of_zero_le h.1
      exact (getImgType_in_range n (by omega)).2
    · have h2 : t < 0 ∨ 30 < t := by omega
      rw [(getImgType_out_of_range t h2).1]
      decide

/-- Witness of C10 at the three-channel 8-bit code 16. -/
theorem getImgType_first_match_witness :
    getImgType 16 = firstMatchName 16 ∧ getImgType 16 = "CV_8UC3" ∧
    getImgType 31 = "unknown image type" :=
  ⟨(getImgType_first_match 16).1, (getImgType_first_match 16).2.2.2.1,
   (getImgType_first_match 31).2.2.2.2 (by simp [Set.mem_Icc])⟩

/-! ## Flip selection -/

/-- C1 (code evaluated at the inputs where it departs from the documented
codes): with both flags set `main` passes `cv::flip` the code 0, which the
source comment documents as the vertical flip, and with only `flip_vertical`
set it passes -1, documented as the flip around both axes. The horizontal-only
and the no-flip selections agree with the documented codes. -/
theorem flipSelection_codes :
    flipCallCode (flipSelection true true) = some FLIP_VERTICAL ∧
    flipCallCode (flipSelection true true) ≠ some FLIP_BOTH ∧
    flipCallCode (flipSelection false true) = some FLIP_BOTH ∧
    flipCallCode (flipSelection false true) ≠ some FLIP_VERTICAL ∧
    flipCallCode (flipSelection true false) = some FLIP_HORIZONTAL ∧
    flipCallCode (flipSelection false false) = none := by
  decide

/-! ## `get_default_camera_info_from_image` -/

/-- C4: the default record copies width, height and frame id of the image,
names the distortion model `plumb_bob` with exactly five zero coefficients,
has `K = [1, 0, width/2; 0, 1, height/2; 0, 0, 1]` with `cx` and `cy` the
exact halves (twice `cx` is the width, twice `cy` the height), has the 3x3
identity as `R`, and has `P` equal to `K` with a zero fourth column. -/
theorem get_default_camera_info_from_image_spec (img : ImageMsg) :
    (get_default_camera_info_from_image img).width = img.width ∧
    (get_default_camera_info_from_image img).height = img.height ∧
    (get_default_camera_info_from_image img).header.frame_id = img.header.frame_id ∧
    (get_default_camera_info_from_image img).distortion_model = "plumb_bob" ∧
    (get_default_camera_info_from_image img).D = [0, 0, 0, 0, 0] ∧
    (get_default_camera_info_from_image img).K =
      [1, 0, (img.width : ℚ) / 2, 0, 1, (img.height : ℚ) / 2, 0, 0, 1] ∧
    2 * (get_default_camera_info_from_image img).K.getD 2 0 = img.width ∧
    2 * (get_default_camera_info_from_image img).K.getD 5 0 = img.height ∧
    (get_default_camera_info_from_image img).R.length = 9 ∧
    (∀ i j : Fin 3, (get_default_camera_info_from_image img).R.getD (3 * i + j) 0 =
      if i = j then 1 else 0) ∧
    (get_default_camera_info_from_image img).P.length = 12 ∧
    (∀ i j : Fin 3, (get_default_camera_info_from_image img).P.getD (4 * i + j) 0 =
      (get_default_camera_info_from_image img).K.getD (3 * i + j) 0) ∧
    (∀ i : Fin 3, (get_default_camera_info_from_image img).P.getD (4 * i + 3) 0 = 0) := by
  refine ⟨rfl, rfl, rfl, rfl, ?_, rfl, ?_, ?_, rfl, ?_, rfl, ?_, ?_⟩
  · simp [get_default_camera_info_from_image, vectorResize, CameraInfo.init, List.replicate]
  · simp only [get_default_camera_info_from_image, List.getD_cons_succ, List.getD_cons_zero]
    ring
  · simp only [get_default_camera_info_from_image, List.getD_cons_succ, List.getD_cons_zero]
    ring
  · intro i j
    fin_cases i <;> fin_cases j <;> simp [get_default_camera_info_from_image]
  · intro i j
    fin_cases i <;> fin_cases j <;> simp [get_default_camera_info_from_image]
  · intro i
    fin_cases i <;> simp [get_default_camera_info_from_image]

/-! ## Source identifier dispatch -/

theorem utf8ByteSize_go_ge_length (cs : List Char) :
    cs.length ≤ String.utf8ByteSize.go cs := by
  induction cs with
  | nil => simp [String.utf8ByteSize.go]
  | cons c cs ih =>
    have := Char.utf8Size_pos c
    simp only [String.utf8ByteSize.go, List.length_cons]
    omega

theorem length_data_le_utf8ByteSize (s : String) : s.data.length ≤ s.utf8ByteSize := by
  cases s with
  | mk cs => exact utf8ByteSize_go_ge_length cs

theorem isdigit_value (c : Char) (h : isdigit c = true) :
    0 ≤ (c.toNat : Int) - 48 ∧ (c.toNat : Int) - 48 ≤ 9 := by
  simp only [isdigit, decide_eq_true_eq] at h
  have h1 : ('0' : Char).toNat ≤ c.toNat := h.1
  have h2 : c.toNat ≤ ('9' : Char).toNat := h.2
  have e1 : ('0' : Char).toNat = 48 := by decide
  have e2 : ('9' : Char).toNat = 57 := by decide
  omega

theorem atoiDigits_bounds : ∀ (cs : List Char) (n : Int), 0 ≤ n →
    n ≤ atoiDigits cs n ∧ atoiDigits cs n + 1 ≤ (n + 1) * 10 ^ cs.length := by
  intro cs
  induction cs with
  | nil => intro n hn; simp [atoiDigits]
  | cons c cs ih =>
    intro n hn
    simp only [atoiDigits, List.length_cons]
    have hpow0 : (0 : Int) < 10 ^ cs.length := by positivity
    have hpow : (1 : Int) ≤ 10 ^ cs.length := by omega
    split
    · rename_i hd
      obtain ⟨d0, d9⟩ := isdigit_value c hd
      obtain ⟨ih1, ih2⟩ := ih (10 * n + ((c.toNat : Int) - 48)) (by omega)
      refine ⟨by omega, ?_⟩
      calc atoiDigits cs (10 * n + ((c.toNat : Int) - 48)) + 1
          ≤ (10 * n + ((c.toNat : Int) - 48) + 1) * 10 ^ cs.length := ih2
        _ ≤ ((n + 1) * 10) * 10 ^ cs.length := by
            apply mul_le_mul_of_nonneg_right _ (by positivity)
            omega
        _ = (n + 1) * 10 ^ (cs.length + 1) := by ring
    · refine ⟨le_refl _, ?_⟩
      have hp : (0 : Int) < 10 ^ (cs.length + 1) := by positivity
      have : (n + 1) * 1 ≤ (n + 1) * 10 ^ (cs.length + 1) :=
        mul_le_mul_of_nonneg_left (by omega) (by omega)
      omega

theorem atoiDigits_le (cs : List Char) (k : Nat) (h : cs.length ≤ k) :
    0 ≤ atoiDigits cs 0 ∧ atoiDigits cs 0 + 1 ≤ 10 ^ k := by
  obtain ⟨h1, h2⟩ := atoiDigits_bounds cs 0 (le_refl _)
  refine ⟨h1, ?_⟩
  have : (10 : Int) ^ cs.length ≤ 10 ^ k := pow_le_pow_right₀ (by norm_num) h
  omega

theorem atoi_bounds_short (cs : List Char) (h : cs.length < 4) :
    -99 ≤ atoi cs ∧ atoi cs ≤ 999 := by
  have hdrop : (cs.dropWhile isspace).length ≤ cs.length :=
    (List.dropWhile_sublist _).length_le
  unfold atoi
  split
  · rename_i r hr
    rw [hr] at hdrop
    simp only [List.length_cons] at hdrop
    have := atoiDigits_le r 2 (by omega)
    omega
  · rename_i r hr
    rw [hr] at hdrop
    simp only [List.length_cons] at hdrop
    have := atoiDigits_le r 2 (by omega)
    omega
  · have := atoiDigits_le (cs.dropWhile isspace) 3 (by omega)
    omega

theorem atoiDigits_append (ds rest : List Char) (hds : ∀ c ∈ ds, isdigit c = true)
    (hrest : ∀ c ∈ rest.head?, isdigit c = false) :
    ∀ n : Int, atoiDigits (ds ++ rest) n =
      n * 10 ^ ds.length + (Nat.ofDigits 10 (ds.reverse.map fun c => c.toNat - 48) : Nat) := by
  induction ds with
  | nil =>
    intro n
    cases rest with
    | nil => simp [atoiDigits]
    | cons c cs =>
      have : isdigit c = false := hrest c (by simp)
      simp [atoiDigits, this]
  | cons d ds ih =>
    intro n
    have hd : isdigit d = true := hds d (by simp)
    have hv := isdigit_value d hd
    show atoiDigits (d :: (ds ++ rest)) n = _
    simp only [atoiDigits, hd, if_true]
    rw [ih (fun c hc => hds c (List.mem_cons_of_mem _ hc))]
    simp only [List.reverse_cons, List.map_append, List.map_cons, List.map_nil,
      Nat.ofDigits_append, Nat.ofDigits_singleton, List.length_map, List.length_reverse,
      List.length_cons]
    push_cast
    have : ((d.toNat - 48 : Nat) : Int) = (d.toNat : Int) - 48 := by omega
    rw [this]
    ring

theorem isdigit_not_space_or_sign (c : Char) (h : isdigit c = true) :
    isspace c = false ∧ c ≠ '-' ∧ c ≠ '+' := by
  refine ⟨?_, ?_, ?_⟩
  · by_contra hs
    simp only [Bool.not_eq_false, isspace, Bool.or_eq_true, beq_iff_eq] at hs
    rcases hs with ((((rfl | rfl) | rfl) | rfl) | rfl) | rfl <;> exact absurd h (by decide)
  · rintro rfl
    exact absurd h (by decide)
  · rintro rfl
    exact absurd h (by decide)

theorem atoi_digits (ds rest : List Char) (hne : ds ≠ [])
    (hds : ∀ c ∈ ds, isdigit c = true) (hrest : ∀ c ∈ rest.head?, isdigit c = false) :
    atoi (ds ++ rest) = decimalValue ds := by
  cases ds with
  | nil => exact absurd rfl hne
  | cons d ds =>
    obtain ⟨hsp, hm, hp⟩ := isdigit_not_space_or_sign d (hds d (by simp))
    have hdrop : (d :: ds ++ rest).dropWhile isspace = d :: (ds ++ rest) := by
      simp [List.dropWhile, hsp]
    unfold atoi
    rw [hdrop]
    split
    · rename_i r hr
      exact absurd (List.cons.inj hr).1 hm
    · rename_i r hr
      exact absurd (List.cons.inj hr).1 hp
    · have := atoiDigits_append (d :: ds) rest hds hrest 0
      simp only [List.cons_append] at this
      rw [this]
      simp [decimalValue]

theorem atoi_no_digits (cs : List Char)
    (h : ∀ c ∈ cs.head?, isdigit c = false ∧ isspace c = false ∧ c ≠ '-' ∧ c ≠ '+') :
    atoi cs = 0 := by
  cases cs with
  | nil => simp [atoi, atoiDigits]
  | cons c cs =>
    obtain ⟨hd, hs, hm, hp⟩ := h c (by simp)
    have hdrop : (c :: cs).dropWhile isspace = c :: cs := by
      simp [List.dropWhile, hs]
    unfold atoi
    rw [hdrop]
    split
    · rename_i r hr
      exact absurd (List.cons.inj hr).1 hm
    · rename_i r hr
      exact absurd (List.cons.inj hr).1 hp
    · simp [atoiDigits, hd]

/-- C3: a `video_stream_provider` of fewer than four `char`s is opened by
device index, the index being `atoi` of the string: an integer between -99
and 999, equal to the decimal value of the leading digits when the string
starts with digits and to 0 when it starts with a character that is neither a
digit, white space nor a sign. A string of four or more `char`s is passed
to `cap.open` itself, as a file name or URI, and no number is parsed. -/
theorem openCallFor_dispatch (s : String) :
    (s.utf8ByteSize < 4 →
      openCallFor s = OpenCall.device (atoi s.data) ∧
      -99 ≤ atoi s.data ∧ atoi s.data ≤ 999 ∧
      (∀ ds rest, s.data = ds ++ rest → ds ≠ [] → (∀ c ∈ ds, isdigit c = true) →
        (∀ c ∈ rest.head?, isdigit c = false) →
        openCallFor s = OpenCall.device (decimalValue ds)) ∧
      ((∀ c ∈ s.data.head?, isdigit c = false ∧ isspace c = false ∧ c ≠ '-' ∧ c ≠ '+') →
        openCallFor s = OpenCall.device 0)) ∧
    (4 ≤ s.utf8ByteSize → openCallFor s = OpenCall.uri s) := by
  constructor
  · intro h
    have hlen : s.data.length < 4 := lt_of_le_of_lt (length_data_le_utf8ByteSize s) h
    have hopen : openCallFor s = OpenCall.device (atoi s.data) := by
      simp [openCallFor, h]
    refine ⟨hopen, (atoi_bounds_short _ hlen).1, (atoi_bounds_short _ hlen).2, ?_, ?_⟩
    · intro ds rest hs hne hds hrest
      rw [hopen, hs, atoi_digits ds rest hne hds hrest]
    · intro hnone
      rw [hopen, atoi_no_digits _ hnone]
  · intro h
    simp [openCallFor, Nat.not_lt.mpr h]

/-- Witness of C3: the provider `"12"` opens device 12, the provider
`"rtsp://10.0.0.1:554"` is opened as a URI. -/
theorem openCallFor_dispatch_witness :
    "12".utf8ByteSize < 4 ∧ openCallFor "12" = OpenCall.device (decimalValue ['1', '2']) ∧
    decimalValue ['1', '2'] = 12 ∧
    4 ≤ "rtsp://10.0.0.1:554".utf8ByteSize ∧
    openCallFor "rtsp://10.0.0.1:554" = OpenCall.uri "rtsp://10.0.0.1:554" :=
  ⟨by decide,
   ((openCallFor_dispatch "12").1 (by decide)).2.2.2.1 ['1', '2'] [] rfl (by simp)
     (by decide) (by simp),
   by decide, by decide, (openCallFor_dispatch "rtsp://10.0.0.1:554").2 (by decide)⟩

/-! ## The per-frame conversion -/

theorem cvRound_intCast (n : Int) : cvRound (n : ℚ) = n := by
  have hfloor : Rat.floor (n : ℚ) = n := by
    have h : Rat.floor (n : ℚ) = ⌊(n : ℚ)⌋ := rfl
    rw [h, Int.floor_intCast]
  simp [cvRound, hfloor]

/-- The scale `65535. / 255.` is the integer 257, so the rescale of an 8-bit
sample is exact and never saturates. -/
theorem rescale_sample (v : Int) (h0 : 0 ≤ v) (h255 : v ≤ 255) :
    saturate_cast (CV_MAT_DEPTH CV_16UC3) ((65535 / 255 : ℚ) * (v : ℚ)) = 257 * v := by
  have e : (65535 / 255 : ℚ) * (v : ℚ) = ((257 * v : Int) : ℚ) := by
    push_cast
    ring
  have hd : CV_MAT_DEPTH CV_16UC3 = CV_16U := by decide
  rw [e, hd]
  simp only [saturate_cast, cvRound_intCast]
  have h1 : ¬ (CV_16U = CV_8U) := by decide
  have h2 : ¬ (CV_16U = CV_8S) := by decide
  simp only [h1, h2, if_false, if_true, clamp]
  split
  · omega
  · split
    · omega
    · rfl

theorem toGray16_eq (frame : Mat) (hc : frame.channels = 3 ∨ frame.channels = 4) :
    toGray16 frame = Except.ok
      { rows := frame.rows
        cols := frame.cols
        type := CV_16UC1
        data := (convertTo frame CV_16UC3 (65535 / 255)).data.map fun row =>
          row.map fun px => [bgr2gray16 px] } := by
  have hch : (convertTo frame CV_16UC3 (65535 / 255)).channels = frame.channels := by
    simp only [convertTo, Mat.channels]
    rcases hc with h | h <;> (simp only [Mat.channels] at h; rw [h]; decide)
  have hdep : (convertTo frame CV_16UC3 (65535 / 255)).depth = CV_16U := by
    simp only [convertTo, Mat.depth, CV_MAKETYPE, CV_MAT_DEPTH, CV_CN_SHIFT, CV_16UC3, CV_16U]
    omega
  have hcond : ¬ ((convertTo frame CV_16UC3 (65535 / 255)).channels ≠ 3 ∧
      (convertTo frame CV_16UC3 (65535 / 255)).channels ≠ 4) := by
    rw [hch]
    omega
  unfold toGray16 cvtColor_BGR2GRAY
  simp only [hcond, if_false, hdep, ne_eq, not_true_eq_false]
  have ht : CV_MAKETYPE CV_16U 1 = CV_16UC1 := rfl
  rw [ht]
  rfl

theorem toGray16_error (frame : Mat) (hc : ¬ (frame.channels = 3 ∨ frame.channels = 4)) :
    ∃ e, toGray16 frame = Except.error e := by
  have hlt : frame.channels ≤ 512 ∧ 1 ≤ frame.channels := by
    simp only [Mat.channels, CV_MAT_CN]
    omega
  have hch : (convertTo frame CV_16UC3 (65535 / 255)).channels = frame.channels := by
    have key : ∀ c : Nat, 1 ≤ c → c ≤ 512 →
        CV_MAT_CN (CV_MAKETYPE (CV_MAT_DEPTH CV_16UC3) c) = c := by
      intro c h1 h2
      simp only [CV_MAT_CN, CV_MAKETYPE, CV_MAT_DEPTH, CV_CN_SHIFT, CV_16UC3, CV_16U]
      omega
    simp only [convertTo, Mat.channels]
    exact key _ hlt.2 hlt.1
  refine ⟨CvException.badChannels, ?_⟩
  unfold toGray16 cvtColor_BGR2GRAY
  have hcond : (convertTo frame CV_16UC3 (65535 / 255)).channels ≠ 3 ∧
      (convertTo frame CV_16UC3 (65535 / 255)).channels ≠ 4 := by
    rw [hch]
    omega
  rw [if_pos hcond]

/-! ## One iteration of the publish loop -/

theorem tick_idle (cfg : LoopConfig) (cam : CameraInfo) (inp : TickInput)
    (hsub : inp.numSubscribers = 0) :
    tick cfg cam inp =
      { cam_info_msg := cam, events := [Event.capRead, Event.sleep], control := Control.next } := by
  simp [tick, hsub]

theorem tick_empty (cfg : LoopConfig) (cam : CameraInfo) (inp : TickInput)
    (hsub : 0 < inp.numSubscribers) (hempty : inp.frame.empty = true) :
    tick cfg cam inp =
      { cam_info_msg := cam, events := [Event.capRead, Event.spinOnce, Event.sleep],
        control := Control.next } := by
  simp [tick, hsub, hempty]

theorem tick_error (cfg : LoopConfig) (cam : CameraInfo) (inp : TickInput)
    (hsub : 0 < inp.numSubscribers) (hne : inp.frame.empty = false) (e : CvException)
    (hg : toGray16 (flipStep cfg.sel inp.frame).1 = Except.error e) :
    tick cfg cam inp =
      { cam_info_msg := cam
        events := [Event.capRead] ++ (flipStep cfg.sel inp.frame).2 ++
          [Event.convertTo, Event.cvtColor]
        control := Control.terminated } := by
  simp [tick, hsub, hne, hg]

theorem tick_publish_default (cfg : LoopConfig) (cam : CameraInfo) (inp : TickInput)
    (hsub : 0 < inp.numSubscribers) (hne : inp.frame.empty = false) (gray : Mat)
    (hg : toGray16 (flipStep cfg.sel inp.frame).1 = Except.ok gray)
    (hcam : cam.distortion_model = "") :
    tick cfg cam inp =
      { cam_info_msg :=
          get_default_camera_info_from_image (toImageMsg cfg.header cfg.msg_encoding gray)
        events := [Event.capRead] ++ (flipStep cfg.sel inp.frame).2 ++
          [Event.convertTo, Event.cvtColor] ++
          [Event.setCameraInfo
             (get_default_camera_info_from_image (toImageMsg cfg.header cfg.msg_encoding gray)),
           Event.publish (toImageMsg cfg.header cfg.msg_encoding gray)
             (get_default_camera_info_from_image (toImageMsg cfg.header cfg.msg_encoding gray))
             inp.now,
           Event.spinOnce, Event.sleep]
        control := Control.next } := by
  simp [tick, hsub, hne, hg, hcam]

theorem tick_publish_loaded (cfg : LoopConfig) (cam : CameraInfo) (inp : TickInput)
    (hsub : 0 < inp.numSubscribers) (hne : inp.frame.empty = false) (gray : Mat)
    (hg : toGray16 (flipStep cfg.sel inp.frame).1 = Except.ok gray)
    (hcam : cam.distortion_model ≠ "") :
    tick cfg cam inp =
      { cam_info_msg := cam
        events := [Event.capRead] ++ (flipStep cfg.sel inp.frame).2 ++
          [Event.convertTo, Event.cvtColor] ++
          [Event.publish (toImageMsg cfg.header cfg.msg_encoding gray) cam inp.now,
           Event.spinOnce, Event.sleep]
        control := Control.next } := by
  simp [tick, hsub, hne, hg, hcam]

/-- C2, as stated, fails: on an iteration with zero subscribers the frame is
still read from the capture (`cap >> frame` on line 282 precedes the
subscriber test on line 284). -/
theorem idle_tick_reads_frame :
    (⟨white2x2, 0, 0⟩ : TickInput).numSubscribers = 0 ∧
    Event.capRead ∈ (tick defaultConfig CameraInfo.init ⟨white2x2, 0, 0⟩).events := by
  refine ⟨rfl, ?_⟩
  rw [tick_idle _ _ _ rfl]
  simp

/-- C2, amended: on every iteration on which the publisher reports zero
subscribers, exactly one frame is read from the capture, and then neither a
flip nor a conversion is run, nothing is published, the calibration record is
unchanged and the iteration ends with the rate sleep. -/
theorem idle_tick_reads_but_does_not_publish (cfg : LoopConfig) (cam : CameraInfo)
    (inp : TickInput) (hsub : inp.numSubscribers = 0) :
    (tick cfg cam inp).events = [Event.capRead, Event.sleep] ∧
    (∀ e ∈ (tick cfg cam inp).events, e.isTransform = false ∧ e.isPublish = false) ∧
    publishes (tick cfg cam inp).events = [] ∧
    synthesized (tick cfg cam inp).events = [] ∧
    (tick cfg cam inp).cam_info_msg = cam ∧
    (tick cfg cam inp).control = Control.next := by
  rw [tick_idle cfg cam inp hsub]
  simp [publishes, synthesized, Event.isTransform, Event.isPublish]

/-- Witness of the amended C2 on an idle iteration offered a 2x2 frame. -/
theorem idle_tick_reads_but_does_not_publish_witness :
    (tick defaultConfig CameraInfo.init ⟨white2x2, 0, 0⟩).events =
      [Event.capRead, Event.sleep] :=
  (idle_tick_reads_but_does_not_publish defaultConfig CameraInfo.init ⟨white2x2, 0, 0⟩ rfl).1

/-- C7: on every iteration with at least one subscriber on which the frame
read is empty, the loop publishes nothing, runs no flip and no conversion,
leaves the calibration record unchanged, neither returns from `main` nor
terminates, and goes through `spinOnce` and the rate sleep on to the next
iteration. -/
theorem empty_frame_tick_skips (cfg : LoopConfig) (cam : CameraInfo) (inp : TickInput)
    (rest : List TickInput)
    (hsub : 0 < inp.numSubscribers) (hempty : inp.frame.empty = true) :
    (tick cfg cam inp).events = [Event.capRead, Event.spinOnce, Event.sleep] ∧
    (∀ e ∈ (tick cfg cam inp).events, e.isTransform = false ∧ e.isPublish = false) ∧
    publishes (tick cfg cam inp).events = [] ∧
    synthesized (tick cfg cam inp).events = [] ∧
    (tick cfg cam inp).cam_info_msg = cam ∧
    (tick cfg cam inp).control = Control.next ∧
    runLoop cfg cam (inp :: rest) =
      { runLoop cfg cam rest with
        events := [Event.capRead, Event.spinOnce, Event.sleep] ++ (runLoop cfg cam rest).events } := by
  have ht := tick_empty cfg cam inp hsub hempty
  refine ⟨by rw [ht], ?_, ?_, ?_, by rw [ht], by rw [ht], ?_⟩
  · rw [ht]
    simp [Event.isTransform, Event.isPublish]
  · rw [ht]
    simp [publishes]
  · rw [ht]
    simp [synthesized]
  · simp [runLoop, ht]

/-- Witness of C7: one subscriber, an empty frame, then the end of the run. -/
theorem empty_frame_tick_skips_witness :
    (tick defaultConfig CameraInfo.init ⟨⟨0, 0, 0, []⟩, 1, 0⟩).events =
      [Event.capRead, Event.spinOnce, Event.sleep] ∧
    (tick defaultConfig CameraInfo.init ⟨⟨0, 0, 0, []⟩, 1, 0⟩).control = Control.next :=
  ⟨(empty_frame_tick_skips defaultConfig CameraInfo.init ⟨⟨0, 0, 0, []⟩, 1, 0⟩ []
      (by decide) (by decide)).1,
   (empty_frame_tick_skips defaultConfig CameraInfo.init ⟨⟨0, 0, 0, []⟩, 1, 0⟩ []
      (by decide) (by decide)).2.2.2.2.2.1⟩

/-! ## Start-up failures -/

/-- C8: when `video_stream_provider` is missing, or the capture is not open
after the open attempt, `main` returns -1, a non-zero exit status, and up to
that return no frame has been read and nothing has been published (the only
call that can have been made is the `cap.open` itself). -/
theorem main_fails_before_reading (provider : Option String) (p : Params) (w : World)
    (h : provider = none ∨ ∃ s, provider = some s ∧ w.isOpened (openCallFor s) = false) :
    (main provider p w).control = Control.returned (-1) ∧
    exitStatus (-1) ≠ 0 ∧
    Event.capRead ∉ (main provider p w).events ∧
    (∀ e ∈ (main provider p w).events, e.isPublish = false) ∧
    publishes (main provider p w).events = [] ∧
    (∀ e ∈ (main provider p w).events, ∃ call, e = Event.capOpen call) := by
  rcases h with rfl | ⟨s, rfl, hs⟩
  · simp [main, publishes]
    decide
  · simp [main, hs, publishes, Event.isPublish]
    decide

/-- Witness of C8: no provider parameter; and provider `"0"` on a machine
where no capture opens. -/
theorem main_fails_before_reading_witness :
    (main none Params.default ⟨fun _ => false, CameraInfo.init, white2x2, []⟩).control =
      Control.returned (-1) ∧
    (main (some "0") Params.default
      ⟨fun _ => false, CameraInfo.init, white2x2, [⟨white2x2, 1, 0⟩]⟩).control =
      Control.returned (-1) :=
  ⟨(main_fails_before_reading none Params.default
      ⟨fun _ => false, CameraInfo.init, white2x2, []⟩ (Or.inl rfl)).1,
   (main_fails_before_reading (some "0") Params.default
      ⟨fun _ => false, CameraInfo.init, white2x2, [⟨white2x2, 1, 0⟩]⟩
      (Or.inr ⟨"0", rfl, rfl⟩)).1⟩

/-! ## The published buffer -/

theorem bgr2gray16_white : bgr2gray16 [65535, 65535, 65535] = 65535 := by decide

theorem white_pixel (px : List Int) (hlen : px.length = 3) (hall : ∀ v ∈ px, v = 255) :
    bgr2gray16 (px.map fun (v : Int) => saturate_cast (CV_MAT_DEPTH CV_16UC3) ((65535 / 255 : ℚ) * (v : ℚ)))
      = 65535 := by
  have hpx : px = List.replicate 3 255 := List.eq_replicate_iff.mpr ⟨hlen, hall⟩
  have h255 := rescale_sample 255 (by norm_num) (by norm_num)
  rw [hpx]
  simp only [List.replicate, List.map_cons, List.map_nil]
  rw [h255]
  exact bgr2gray16_white

/-- C9: for every non-empty 8-bit three-channel frame, with no flip
configured and at least one subscriber, the rescale by `65535 / 255` into 16
bits followed by BGR-to-gray succeeds and the iteration publishes exactly one
image, built from a buffer that has the rows and columns of the frame, one
channel and 16-bit unsigned depth (so a row of the message takes two bytes per
pixel); when every sample of the frame is 255, every pixel of that buffer,
and every sample of the published message, is 65535. -/
theorem tick_publishes_gray16 (cfg : LoopConfig) (cam : CameraInfo) (inp : TickInput)
    (hwf : inp.frame.WF) (htype : inp.frame.type = CV_8UC3) (hne : inp.frame.empty = false)
    (hflip : cfg.sel.flip_image = false) (hsub : 0 < inp.numSubscribers) :
    ∃ gray info,
      toGray16 inp.frame = Except.ok gray ∧
      publishes (tick cfg cam inp).events =
        [(toImageMsg cfg.header cfg.msg_encoding gray, info)] ∧
      gray.rows = inp.frame.rows ∧ gray.cols = inp.frame.cols ∧
      gray.channels = 1 ∧ gray.depth = CV_16U ∧ gray.type = CV_16UC1 ∧ gray.WF ∧
      (toImageMsg cfg.header cfg.msg_encoding gray).height = inp.frame.rows ∧
      (toImageMsg cfg.header cfg.msg_encoding gray).width = inp.frame.cols ∧
      (toImageMsg cfg.header cfg.msg_encoding gray).step = inp.frame.cols * 2 ∧
      ((∀ row ∈ inp.frame.data, ∀ px ∈ row, ∀ v ∈ px, v = 255) →
        (∀ row ∈ gray.data, ∀ px ∈ row, px = [65535]) ∧
        ∀ v ∈ (toImageMsg cfg.header cfg.msg_encoding gray).data, v = 65535) := by
  have hch : inp.frame.channels = 3 := by
    simp only [Mat.channels, htype]
    decide
  have hg := toGray16_eq inp.frame (Or.inl hch)
  have hfs : flipStep cfg.sel inp.frame = (inp.frame, []) := by simp [flipStep, hflip]
  have hg2 : toGray16 (flipStep cfg.sel inp.frame).1 = Except.ok
      { rows := inp.frame.rows
        cols := inp.frame.cols
        type := CV_16UC1
        data := (convertTo inp.frame CV_16UC3 (65535 / 255)).data.map fun row =>
          row.map fun px => [bgr2gray16 px] } := by
    rw [hfs]
    exact hg
  have hwhite : (∀ row ∈ inp.frame.data, ∀ px ∈ row, ∀ v ∈ px, v = 255) →
      ∀ row ∈ ((convertTo inp.frame CV_16UC3 (65535 / 255)).data.map fun row =>
          row.map fun px => [bgr2gray16 px]), ∀ px ∈ row, px = [65535] := by
    intro hall row hrow px hpx
    simp only [convertTo, List.map_map, List.mem_map, Function.comp] at hrow
    obtain ⟨row0, hrow0, rfl⟩ := hrow
    simp only [List.map_map, List.mem_map, Function.comp] at hpx
    obtain ⟨px0, hpx0, rfl⟩ := hpx
    have hlen : px0.length = 3 := by
      rw [← hch]
      exact ((hwf.2 row0 hrow0).2 px0 hpx0)
    rw [white_pixel px0 hlen (hall row0 hrow0 px0 hpx0)]
  have hpub : ∃ info, publishes (tick cfg cam inp).events =
      [(toImageMsg cfg.header cfg.msg_encoding
        { rows := inp.frame.rows
          cols := inp.frame.cols
          type := CV_16UC1
          data := (convertTo inp.frame CV_16UC3 (65535 / 255)).data.map fun row =>
            row.map fun px => [bgr2gray16 px] }, info)] := by
    by_cases hcam : cam.distortion_model = ""
    · rw [tick_publish_default cfg cam inp hsub hne _ hg2 hcam, hfs]
      exact ⟨_, rfl⟩
    · rw [tick_publish_loaded cfg cam inp hsub hne _ hg2 hcam, hfs]
      exact ⟨_, rfl⟩
  obtain ⟨info, hinfo⟩ := hpub
  refine ⟨_, info, hg, hinfo, rfl, rfl, ?_, ?_, rfl, ?_, rfl, rfl, ?_, ?_⟩
  · simp only [Mat.channels]
    decide
  · simp only [Mat.depth]
    decide
  · refine ⟨?_, ?_⟩
    · simp [convertTo, hwf.1]
    · intro row hrow
      simp only [convertTo, List.map_map, List.mem_map, Function.comp] at hrow
      obtain ⟨row0, hrow0, rfl⟩ := hrow
      refine ⟨by simp [(hwf.2 row0 hrow0).1], ?_⟩
      intro px hpx
      simp only [List.map_map, List.mem_map, Function.comp] at hpx
      obtain ⟨px0, _, rfl⟩ := hpx
      simp only [Mat.channels, List.length_singleton]
      decide
  · have e : CV_MAT_CN CV_16UC1 * elemSize1 (CV_MAT_DEPTH CV_16UC1) = 2 := by decide
    simp only [toImageMsg, Mat.elemSize, Mat.channels, Mat.depth, e]
  · intro hall
    refine ⟨hwhite hall, ?_⟩
    intro v hv
    simp only [toImageMsg, List.mem_flatten] at hv
    obtain ⟨px, ⟨row, hrow, hpx⟩, hvpx⟩ := hv
    rw [hwhite hall row hrow px hpx] at hvpx
    simpa using hvpx

/-- Witness of C9: the 2x2 all-white 8-bit three-channel frame, one
subscriber, default configuration. -/
theorem tick_publishes_gray16_witness :
    ∃ gray info,
      toGray16 white2x2 = Except.ok gray ∧
      publishes (tick defaultConfig CameraInfo.init ⟨white2x2, 1, 0⟩).events =
        [(toImageMsg defaultConfig.header defaultConfig.msg_encoding gray, info)] ∧
      gray.rows = 2 ∧ gray.cols = 2 ∧ gray.channels = 1 ∧ gray.depth = CV_16U ∧
      ∀ row ∈ gray.data, ∀ px ∈ row, px = [65535] := by
  obtain ⟨gray, info, h1, h2, h3, h4, h5, h6, _, _, _, _, _, h12⟩ :=
    tick_publishes_gray16 defaultConfig CameraInfo.init ⟨white2x2, 1, 0⟩
      (by decide) (by decide) (by decide) (by decide) (by decide)
  exact ⟨gray, info, h1, h2, h3, h4, h5, h6, (h12 (by decide)).1⟩

/-! ## Calibration records over a run of the loop -/

theorem publishes_append (xs ys : List Event) :
    publishes (xs ++ ys) = publishes xs ++ publishes ys := by
  induction xs with
  | nil => rfl
  | cons e es ih => cases e <;> simp [publishes, ih]

theorem synthesized_append (xs ys : List Event) :
    synthesized (xs ++ ys) = synthesized xs ++ synthesized ys := by
  induction xs with
  | nil => rfl
  | cons e es ih => cases e <;> simp [synthesized, ih]

theorem flipStep_events (sel : FlipSel) (frame : Mat) :
    publishes (flipStep sel frame).2 = [] ∧ synthesized (flipStep sel frame).2 = [] := by
  unfold flipStep
  split <;> exact ⟨rfl, rfl⟩

theorem default_distortion_model (img : ImageMsg) :
    (get_default_camera_info_from_image img).distortion_model ≠ "" := by
  show "plumb_bob" ≠ ""
  decide

/-- What one iteration does to the calibration record: either it publishes
nothing, stores nothing and keeps the record, or it goes on to the next
iteration after one publish, of the record kept when a model is set and of
a freshly stored default built from the published image when none is. -/
theorem tick_cases (cfg : LoopConfig) (cam : CameraInfo) (inp : TickInput) :
    ((tick cfg cam inp).cam_info_msg = cam ∧ publishes (tick cfg cam inp).events = [] ∧
      synthesized (tick cfg cam inp).events = []) ∨
    ((tick cfg cam inp).control = Control.next ∧ ∃ msg,
      (cam.distortion_model = "" ∧
        (tick cfg cam inp).cam_info_msg = get_default_camera_info_from_image msg ∧
        publishes (tick cfg cam inp).events = [(msg, get_default_camera_info_from_image msg)] ∧
        synthesized (tick cfg cam inp).events = [get_default_camera_info_from_image msg]) ∨
      (cam.distortion_model ≠ "" ∧
        (tick cfg cam inp).cam_info_msg = cam ∧
        publishes (tick cfg cam inp).events = [(msg, cam)] ∧
        synthesized (tick cfg cam inp).events = [])) := by
  obtain ⟨hfp, hfs⟩ := flipStep_events cfg.sel inp.frame
  by_cases hsub : inp.numSubscribers = 0
  · left
    rw [tick_idle cfg cam inp hsub]
    exact ⟨rfl, rfl, rfl⟩
  have hpos : 0 < inp.numSubscribers := Nat.pos_of_ne_zero hsub
  by_cases hempty : inp.frame.empty = true
  · left
    rw [tick_empty cfg cam inp hpos hempty]
    exact ⟨rfl, rfl, rfl⟩
  have hne : inp.frame.empty = false := by simpa using hempty
  cases hg : toGray16 (flipStep cfg.sel inp.frame).1 with
  | error e =>
    left
    rw [tick_error cfg cam inp hpos hne e hg]
    simp [publishes_append, synthesized_append, hfp, hfs, publishes, synthesized]
  | ok gray =>
    right
    by_cases hcam : cam.distortion_model = ""
    · rw [tick_publish_default cfg cam inp hpos hne gray hg hcam]
      refine ⟨rfl, toImageMsg cfg.header cfg.msg_encoding gray, Or.inl ⟨hcam, rfl, ?_, ?_⟩⟩
      · simp [publishes_append, hfp, publishes]
      · simp [synthesized_append, hfs, synthesized]
    · rw [tick_publish_loaded cfg cam inp hpos hne gray hg hcam]
      refine ⟨rfl, toImageMsg cfg.header cfg.msg_encoding gray, Or.inr ⟨hcam, rfl, ?_, ?_⟩⟩
      · simp [publishes_append, hfp, publishes]
      · simp [synthesized_append, hfs, synthesized]

theorem runLoop_cons_next (cfg : LoopConfig) (cam : CameraInfo) (inp : TickInput)
    (rest : List TickInput) (h : (tick cfg cam inp).control = Control.next) :
    (runLoop cfg cam (inp :: rest)).events =
      (tick cfg cam inp).events ++ (runLoop cfg (tick cfg cam inp).cam_info_msg rest).events := by
  simp [runLoop, h]

theorem runLoop_cons_stop (cfg : LoopConfig) (cam : CameraInfo) (inp : TickInput)
    (rest : List TickInput) (h : (tick cfg cam inp).control ≠ Control.next) :
    (runLoop cfg cam (inp :: rest)).events = (tick cfg cam inp).events := by
  cases hc : (tick cfg cam inp).control with
  | next => exact absurd hc h
  | returned code => simp [runLoop, hc]
  | terminated => simp [runLoop, hc]

/-- A run started with a record whose distortion model is set stores no default
and hands the record it started with to every publish. -/
theorem runLoop_loaded (cfg : LoopConfig) (ticks : List TickInput) :
    ∀ cam : CameraInfo, cam.distortion_model ≠ "" →
      synthesized (runLoop cfg cam ticks).events = [] ∧
      ∀ p ∈ publishes (runLoop cfg cam ticks).events, p.2 = cam := by
  induction ticks with
  | nil =>
    intro cam _
    simp [runLoop, synthesized, publishes]
  | cons inp rest ih =>
    intro cam hcam
    rcases tick_cases cfg cam inp with ⟨hc, hp, hs⟩ | ⟨hnext, msg, h⟩
    · by_cases hnext : (tick cfg cam inp).control = Control.next
      · rw [runLoop_cons_next cfg cam inp rest hnext, synthesized_append, publishes_append,
          hp, hs, hc]
        simpa using ih cam hcam
      · rw [runLoop_cons_stop cfg cam inp rest hnext, hp, hs]
        simp
    · rcases h with ⟨h0, _⟩ | ⟨_, hc, hp, hs⟩
      · exact absurd h0 hcam
      · rw [runLoop_cons_next cfg cam inp rest hnext, synthesized_append, publishes_append,
          hp, hs, hc]
        obtain ⟨ih1, ih2⟩ := ih cam hcam
        refine ⟨by simpa using ih1, ?_⟩
        intro p hp
        simp only [List.singleton_append, List.mem_cons] at hp
        rcases hp with rfl | hp
        · rfl
        · exact ih2 p hp

/-- A run started without a distortion model either publishes nothing and
stores nothing, or stores exactly one default, built from the first published
image, and hands that record to the first and to every later publish. -/
theorem runLoop_absent (cfg : LoopConfig) (ticks : List TickInput) :
    ∀ cam : CameraInfo, cam.distortion_model = "" →
      (publishes (runLoop cfg cam ticks).events = [] ∧
        synthesized (runLoop cfg cam ticks).events = []) ∨
      ∃ img later,
        publishes (runLoop cfg cam ticks).events =
          (img, get_default_camera_info_from_image img) :: later ∧
        synthesized (runLoop cfg cam ticks).events = [get_default_camera_info_from_image img] ∧
        ∀ p ∈ later, p.2 = get_default_camera_info_from_image img := by
  induction ticks with
  | nil =>
    intro cam _
    left
    simp [runLoop, synthesized, publishes]
  | cons inp rest ih =>
    intro cam hcam
    rcases tick_cases cfg cam inp with ⟨hc, hp, hs⟩ | ⟨hnext, msg, h⟩
    · by_cases hnext : (tick cfg cam inp).control = Control.next
      · rw [runLoop_cons_next cfg cam inp rest hnext, synthesized_append, publishes_append,
          hp, hs, hc]
        simpa using ih cam hcam
      · rw [runLoop_cons_stop cfg cam inp rest hnext, hp, hs]
        left
        exact ⟨rfl, rfl⟩
    · rcases h with ⟨_, hc, hp, hs⟩ | ⟨h0, _⟩
      · right
        rw [runLoop_cons_next cfg cam inp rest hnext, synthesized_append, publishes_append,
          hp, hs, hc]
        obtain ⟨l1, l2⟩ := runLoop_loaded cfg rest (get_default_camera_info_from_image msg)
          (default_distortion_model msg)
        exact ⟨msg, _, rfl, by simp [l1], l2⟩
      · exact absurd hcam h0

/-- C5: when the record loaded at start-up has an empty distortion model, a
run of the loop stores a default record at most once, and exactly once if it
publishes at all: that record is built from the first published image, and
the first publish and every later one attach it unchanged. When the loaded
record has a distortion model, no default is ever built and every publish
attaches the loaded record unchanged. -/
theorem calibration_synthesized_once (cfg : LoopConfig) (loaded : CameraInfo)
    (ticks : List TickInput) :
    (loaded.distortion_model = "" →
      (publishes (runLoop cfg loaded ticks).events = [] →
        synthesized (runLoop cfg loaded ticks).events = []) ∧
      (∀ first later, publishes (runLoop cfg loaded ticks).events = first :: later →
        synthesized (runLoop cfg loaded ticks).events =
          [get_default_camera_info_from_image first.1] ∧
        ∀ p ∈ publishes (runLoop cfg loaded ticks).events,
          p.2 = get_default_camera_info_from_image first.1)) ∧
    (loaded.distortion_model ≠ "" →
      synthesized (runLoop cfg loaded ticks).events = [] ∧
      ∀ p ∈ publishes (runLoop cfg loaded ticks).events, p.2 = loaded) := by
  refine ⟨fun h => ?_, fun h => runLoop_loaded cfg ticks loaded h⟩
  rcases runLoop_absent cfg ticks loaded h with ⟨hp, hs⟩ | ⟨img, rest, hp, hs, hall⟩
  · refine ⟨fun _ => hs, ?_⟩
    intro first later hfl
    rw [hp] at hfl
    exact absurd hfl (by simp)
  · refine ⟨fun h0 => ?_, ?_⟩
    · rw [hp] at h0
      exact absurd h0 (by simp)
    · intro first later hfl
      rw [hp] at hfl
      obtain ⟨rfl, rfl⟩ := List.cons.inj hfl
      refine ⟨hs, ?_⟩
      intro p hmem
      rw [hp] at hmem
      rcases List.mem_cons.mp hmem with rfl | hmem
      · rfl
      · exact hall p hmem

theorem toGray16_white2x2 :
    ∃ gray, toGray16 white2x2 = Except.ok gray ∧ gray.rows = 2 ∧ gray.cols = 2 :=
  ⟨_, toGray16_eq white2x2 (Or.inl (by decide)), rfl, rfl⟩

theorem toGray16_white1x3 :
    ∃ gray, toGray16 white1x3 = Except.ok gray ∧ gray.rows = 1 ∧ gray.cols = 3 :=
  ⟨_, toGray16_eq white1x3 (Or.inl (by decide)), rfl, rfl⟩

/-- Witness of C5: started without a record, two publishes of 2x2 frames carry
the one default built from the first; started with a persisted record, the
publish carries it. -/
theorem calibration_synthesized_once_witness :
    (∀ first later,
      publishes (runLoop defaultConfig CameraInfo.init
        [⟨white2x2, 1, 0⟩, ⟨white2x2, 1, 1⟩]).events = first :: later →
      synthesized (runLoop defaultConfig CameraInfo.init
        [⟨white2x2, 1, 0⟩, ⟨white2x2, 1, 1⟩]).events =
          [get_default_camera_info_from_image first.1]) ∧
    synthesized (runLoop defaultConfig persisted640x480 [⟨white2x2, 1, 0⟩]).events = [] :=
  ⟨fun first later h =>
    (((calibration_synthesized_once defaultConfig CameraInfo.init
      [⟨white2x2, 1, 0⟩, ⟨white2x2, 1, 1⟩]).1 rfl).2 first later h).1,
   ((calibration_synthesized_once defaultConfig persisted640x480
      [⟨white2x2, 1, 0⟩]).2 (by decide)).1⟩

/-- C6, as stated, fails. With a persisted 640x480 record the publish of a 2x2
frame attaches the 640x480 record; and without a persisted record, when a 2x2
frame is followed by a frame of three columns and one row, the second publish
still attaches the 2x2 default. -/
theorem calibration_dimensions_mismatch :
    (publishes (runLoop defaultConfig persisted640x480 [⟨white2x2, 1, 0⟩]).events).map
        publishDims = [((2, 2), (640, 480))] ∧
    (publishes (runLoop defaultConfig CameraInfo.init
        [⟨white2x2, 1, 0⟩, ⟨white1x3, 1, 1⟩]).events).map publishDims =
      [((2, 2), (2, 2)), ((3, 1), (2, 2))] := by
  obtain ⟨g2, hg2, hr2, hc2⟩ := toGray16_white2x2
  obtain ⟨g3, hg3, hr3, hc3⟩ := toGray16_white1x3
  have t1 := tick_publish_loaded defaultConfig persisted640x480 ⟨white2x2, 1, 0⟩
    (by decide) (by decide) g2 hg2 (by decide)
  have t2 := tick_publish_default defaultConfig CameraInfo.init ⟨white2x2, 1, 0⟩
    (by decide) (by decide) g2 hg2 rfl
  have t3 := tick_publish_loaded defaultConfig
    (get_default_camera_info_from_image
      (toImageMsg defaultConfig.header defaultConfig.msg_encoding g2)) ⟨white1x3, 1, 1⟩
    (by decide) (by decide) g3 hg3 (default_distortion_model _)
  have hf : ∀ f, flipStep defaultConfig.sel f = (f, []) := fun _ => rfl
  constructor
  · rw [runLoop_cons_next _ _ _ _ (by rw [t1]), t1, hf]
    simp only [runLoop, publishes, List.append_nil, List.nil_append, List.cons_append,
      List.map_cons, List.map_nil, publishDims, toImageMsg, hr2, hc2]
    rfl
  · rw [runLoop_cons_next _ _ _ _ (by rw [t2]), t2, runLoop_cons_next _ _ _ _ (by rw [t3]), t3,
      hf, hf]
    simp only [runLoop, publishes, List.append_nil, List.nil_append, List.cons_append,
      List.map_cons, List.map_nil, publishDims, toImageMsg, hr2, hc2, hr3, hc3]
    rfl

/-- C6, amended: on every publish of a run started with a persisted record
(distortion model set), the attached record has the width and height of the
persisted record, whatever the image. On a run started without one, the
record attached to the first publish has the width and height of the first
published image, and every later publish attaches a record of these same
dimensions, so record and image agree on a later publish exactly when its
image has the dimensions of the first. -/
theorem calibration_dimensions (cfg : LoopConfig) (loaded : CameraInfo)
    (ticks : List TickInput) :
    (loaded.distortion_model ≠ "" →
      ∀ p ∈ publishes (runLoop cfg loaded ticks).events,
        p.2.width = loaded.width ∧ p.2.height = loaded.height) ∧
    (loaded.distortion_model = "" →
      ∀ first later, publishes (runLoop cfg loaded ticks).events = first :: later →
        first.2.width = first.1.width ∧ first.2.height = first.1.height ∧
        ∀ p ∈ later,
          p.2.width = first.1.width ∧ p.2.height = first.1.height ∧
          ((p.2.width = p.1.width ∧ p.2.height = p.1.height) ↔
            (p.1.width = first.1.width ∧ p.1.height = first.1.height))) := by
  constructor
  · intro h p hp
    rw [(runLoop_loaded cfg ticks loaded h).2 p hp]
    exact ⟨rfl, rfl⟩
  · intro h first later hfl
    rcases runLoop_absent cfg ticks loaded h with ⟨hp, _⟩ | ⟨img, rest, hp, _, hall⟩
    · rw [hp] at hfl
      exact absurd hfl (by simp)
    · rw [hp] at hfl
      obtain ⟨rfl, rfl⟩ := List.cons.inj hfl
      refine ⟨rfl, rfl, ?_⟩
      intro p hmem
      have e := hall p hmem
      have hw : p.2.width = img.width := by rw [e]; rfl
      have hh : p.2.height = img.height := by rw [e]; rfl
      refine ⟨hw, hh, ?_⟩
      rw [hw, hh]
      constructor
      · rintro ⟨a, b⟩
        exact ⟨a.symm, b.symm⟩
      · rintro ⟨a, b⟩
        exact ⟨a.symm, b.symm⟩

/-- Witness of the amended C6 on the run with a persisted 640x480 record and
one 2x2 frame. -/
theorem calibration_dimensions_witness :
    ∀ p ∈ publishes (runLoop defaultConfig persisted640x480 [⟨white2x2, 1, 0⟩]).events,
      p.2.width = 640 ∧ p.2.height = 480 :=
  (calibration_dimensions defaultConfig persisted640x480 [⟨white2x2, 1, 0⟩]).1 (by decide)

end VideoStream
